import Mathlib

/-!
# Mazda RX7 watch face (`src/c/Mazda.c`): a shallow embedding

The program is an event-driven client of the Pebble SDK.  Program globals
become fields of `State`; every SDK call with a visible effect is appended to
`State.log`, in program order.  What the host supplies to a callback (the
local time, the clock style, `rand()`, screen geometry) is an explicit
argument.
-/

namespace Mazda

/-! ## libc: `struct tm` and `strftime` -/

/-- The fields of the C `struct tm` that the formats of this program read.
`tm_mon` counts months since January (0..11), as in C. -/
structure Tm where
  tm_sec : Nat
  tm_min : Nat
  tm_hour : Nat
  tm_mday : Nat
  tm_mon : Nat
  deriving DecidableEq, Repr

/-- A local time as `localtime` produces it. -/
def Tm.valid (t : Tm) : Prop :=
  t.tm_hour < 24 ∧ t.tm_min < 60 ∧ 1 ≤ t.tm_mday ∧ t.tm_mday ≤ 31 ∧ t.tm_mon < 12

instance (t : Tm) : Decidable t.valid := by
  unfold Tm.valid
  infer_instance

/-- Decimal rendering with a minimum of two digits, padded with zeros
(the `%02d` every numeric conversion below is printed with). -/
def fmt02 (n : Nat) : List Char :=
  let ds := Nat.toDigits 10 n
  List.replicate (2 - ds.length) '0' ++ ds

/-- The hour on the 12-hour clock, as `%I` computes it (01..12). -/
def hour12 (h : Nat) : Nat :=
  if h % 12 = 0 then 12 else h % 12

/-- One conversion specification of `strftime`; `none` for a specifier this
model does not cover. -/
def conversion (c : Char) (t : Tm) : Option (List Char) :=
  if c = 'H' then some (fmt02 t.tm_hour)
  else if c = 'I' then some (fmt02 (hour12 t.tm_hour))
  else if c = 'M' then some (fmt02 t.tm_min)
  else if c = 'd' then some (fmt02 t.tm_mday)
  else if c = 'm' then some (fmt02 (t.tm_mon + 1))
  else if c = '%' then some ['%']
  else none

/-- Expansion of a `strftime` format: ordinary characters are copied, `%x`
is replaced by its conversion. -/
def expand : List Char → Tm → Option (List Char)
  | [], _ => some []
  | c :: rest, t =>
    if c = '%' then
      match rest with
      | [] => none
      | x :: rest2 =>
        match conversion x t, expand rest2 t with
        | some a, some b => some (a ++ b)
        | _, _ => none
    else
      match expand rest t with
      | some b => some (c :: b)
      | none => none

/-- The call `strftime(buf, maxsize, format, tm)`: `some text` when the
expansion and its terminator fit in `maxsize` bytes (the call returns the
length and `buf` holds `text`), `none` when they do not (the call returns 0
and the contents of `buf` are indeterminate). -/
def strftime (maxsize : Nat) (format : String) (t : Tm) : Option String :=
  match expand format.data t with
  | some out => if out.length + 1 ≤ maxsize then some (String.mk out) else none
  | none => none

/-! ## Pebble SDK: handles, values and the calls the program makes -/

/-- An object reference returned by the SDK (`Window *`, `Layer *`,
`BitmapLayer *`, `TextLayer *`, `GFont`, `GBitmap *`). -/
abbrev Handle := Nat

/-- The SDK rectangle: origin `x`, `y` and size `w`, `h`. -/
structure GRect where
  x : Int
  y : Int
  w : Int
  h : Int
  deriving DecidableEq, Repr

/-- The colours the program uses. -/
inductive GColor
  | GColorClear
  | GColorBlack
  | GColorDarkCandyAppleRed
  deriving DecidableEq, Repr

/-- The text alignment the program uses. -/
inductive GTextAlignment
  | GTextAlignmentCenter
  deriving DecidableEq, Repr

/-- The identifiers of the bundled resources. -/
inductive ResourceId
  | RESOURCE_ID_IMAGE_MAZDA_0
  | RESOURCE_ID_IMAGE_MAZDA_1
  | RESOURCE_ID_IMAGE_MAZDA_2
  | RESOURCE_ID_IMAGE_MAZDA_3
  | RESOURCE_ID_FONT_COOPER_28
  | RESOURCE_ID_FONT_CONTRAIL_18
  deriving DecidableEq, Repr

/-- An SDK call with an effect on the host, with its arguments and, for a
constructor call, the handle it returned.  A read of `maz[i]` is an
`Option`: `none` stands for an index outside the array. -/
inductive Call
  | bitmap_layer_create (frame : GRect) (result : Handle)
  | text_layer_create (frame : GRect) (result : Handle)
  | fonts_load_custom_font (res : ResourceId) (result : Handle)
  | gbitmap_create_with_resource (res : ResourceId) (result : Handle)
  | layer_add_child (parent : Handle) (child : Handle)
  | text_layer_set_background_color (layer : Handle) (color : GColor)
  | text_layer_set_text_color (layer : Handle) (color : GColor)
  | text_layer_set_text (layer : Handle) (text : String)
  | text_layer_set_font (layer : Handle) (font : Handle)
  | text_layer_set_text_alignment (layer : Handle) (a : GTextAlignment)
  | bitmap_layer_set_bitmap (layer : Handle) (bitmap : Option Handle)
  | bitmap_layer_destroy (layer : Handle)
  | text_layer_destroy (layer : Handle)
  | fonts_unload_custom_font (font : Handle)
  | gbitmap_destroy (bitmap : Option Handle)
  | vibes_double_pulse
  | window_create (result : Handle)
  | window_set_window_handlers (window : Handle)
  | window_stack_push (window : Handle) (animated : Bool)
  | tick_timer_service_subscribe
  | connection_service_subscribe
  | window_destroy (window : Handle)
  deriving DecidableEq, Repr

/-- The C array `static GBitmap *maz[4]`: exactly four cells. -/
structure Maz where
  cells : List Handle
  size_eq : cells.length = 4

/-- The read `maz[i]`; `none` when `i` is not an index of the array. -/
def Maz.get? (a : Maz) (i : Nat) : Option Handle := a.cells[i]?

/-- The assignment `maz[i] = h`. -/
def Maz.set (a : Maz) (i : Nat) (h : Handle) : Maz :=
  ⟨a.cells.set i h, by rw [List.length_set]; exact a.size_eq⟩

/-! ## Program state -/

/-- The globals of `Mazda.c`, the two `static` buffers of `update_time`, and
the host: the next handle it will hand out and the calls received so far. -/
structure State where
  window : Handle
  bitmap_layer : Handle
  maz : Maz
  s_time_layer : Handle
  s_date_layer : Handle
  s_time_font : Handle
  s_date_font : Handle
  isConnected : Bool
  s_buffer : String
  date_buffer : String
  next : Handle
  log : List Call

/-- What the host answers during one callback: the local time
(`localtime(time(NULL))`) and `clock_is_24h_style()`. -/
structure Env where
  now : Tm
  is24h : Bool
  deriving DecidableEq, Repr

/-- What the host answers while the window loads: the platform shape behind
`PBL_IF_ROUND_ELSE`, the root layer of the window and its bounds, and the
value of `rand()`. -/
structure Host where
  round : Bool
  root_layer : Handle
  bounds : GRect
  rand : Nat
  deriving DecidableEq, Repr

/-- Record one SDK call. -/
def State.call (s : State) (c : Call) : State :=
  { s with log := s.log ++ [c] }

/-- A constructor call of the SDK: the host hands out its next handle, and
the call is recorded with it. -/
def State.create (s : State) (mk : Handle → Call) : Handle × State :=
  (s.next, { s with next := s.next + 1, log := s.log ++ [mk s.next] })

/-- The calls recorded between `s` and a later state `s2`. -/
def emitted (s s2 : State) : List Call := s2.log.drop s.log.length

/-- The state at program start: static storage zeroed, `isConnected = true`. -/
def program_start : State where
  window := 0
  bitmap_layer := 0
  maz := ⟨[0, 0, 0, 0], rfl⟩
  s_time_layer := 0
  s_date_layer := 0
  s_time_font := 0
  s_date_font := 0
  isConnected := true
  s_buffer := ""
  date_buffer := ""
  next := 1
  log := []

/-! ## The functions of `Mazda.c` -/

/-- Embedding of `update_time`.  When `strftime` fails the buffer keeps its
previous contents (C leaves them indeterminate). -/
def update_time (env : Env) (s : State) : State :=
  let tick_time := env.now
  let s1 : State :=
    if s.isConnected then
      match strftime 8 (if env.is24h then "%H:%M" else "%I:%M") tick_time with
      | some text => { s with s_buffer := text }
      | none => s
    else
      match strftime 8 (if env.is24h then "[%H:%M]" else "[%I:%M]") tick_time with
      | some text => { s with s_buffer := text }
      | none => s
  let s2 := s1.call (Call.text_layer_set_text s1.s_time_layer s1.s_buffer)
  let s3 : State :=
    match strftime 8 (if env.is24h then "%d/%m" else "%m/%d") tick_time with
    | some text => { s2 with date_buffer := text }
    | none => s2
  s3.call (Call.text_layer_set_text s3.s_date_layer s3.date_buffer)

/-- Embedding of `tick_handler`: both arguments are ignored. -/
def tick_handler (env : Env) (_tick_time : Tm) (_units_changed : Nat) (s : State) : State :=
  update_time env s

/-- Embedding of `load_background`; `rand` is the value `rand()` returns. -/
def load_background (rand : Nat) (s : State) : State :=
  let (b0, s) := s.create (Call.gbitmap_create_with_resource ResourceId.RESOURCE_ID_IMAGE_MAZDA_0)
  let s := { s with maz := s.maz.set 0 b0 }
  let (b1, s) := s.create (Call.gbitmap_create_with_resource ResourceId.RESOURCE_ID_IMAGE_MAZDA_1)
  let s := { s with maz := s.maz.set 1 b1 }
  let (b2, s) := s.create (Call.gbitmap_create_with_resource ResourceId.RESOURCE_ID_IMAGE_MAZDA_2)
  let s := { s with maz := s.maz.set 2 b2 }
  let (b3, s) := s.create (Call.gbitmap_create_with_resource ResourceId.RESOURCE_ID_IMAGE_MAZDA_3)
  let s := { s with maz := s.maz.set 3 b3 }
  s.call (Call.bitmap_layer_set_bitmap s.bitmap_layer (s.maz.get? (rand % 4)))

/-- Embedding of `bluetooth_callback`. -/
def bluetooth_callback (env : Env) (connected : Bool) (s : State) : State :=
  if connected then
    let s := { s with isConnected := true }
    update_time env s
  else
    let s := { s with isConnected := false }
    let s := s.call Call.vibes_double_pulse
    update_time env s

/-- Embedding of `window_load`.  `bitmap_layer_get_layer` and
`text_layer_get_layer` return the layer of the object they are given, which
is referred to by the same handle. -/
def window_load (host : Host) (s : State) : State :=
  let window_layer := host.root_layer
  let bounds := host.bounds
  let (h, s) := s.create (Call.bitmap_layer_create bounds)
  let s := { s with bitmap_layer := h }
  let s := s.call (Call.layer_add_child window_layer s.bitmap_layer)
  let (h, s) := s.create
    (Call.text_layer_create ⟨0, if host.round then 6 else 0, bounds.w, bounds.h⟩)
  let s := { s with s_time_layer := h }
  let (h, s) := s.create
    (Call.text_layer_create ⟨0, if host.round then 150 else 138, bounds.w, bounds.h⟩)
  let s := { s with s_date_layer := h }
  let (h, s) := s.create (Call.fonts_load_custom_font ResourceId.RESOURCE_ID_FONT_COOPER_28)
  let s := { s with s_time_font := h }
  let (h, s) := s.create (Call.fonts_load_custom_font ResourceId.RESOURCE_ID_FONT_CONTRAIL_18)
  let s := { s with s_date_font := h }
  let s := s.call (Call.text_layer_set_background_color s.s_time_layer GColor.GColorClear)
  let s := s.call (Call.text_layer_set_text_color s.s_time_layer GColor.GColorBlack)
  let s := s.call (Call.text_layer_set_text s.s_time_layer "00:00")
  let s := s.call (Call.text_layer_set_font s.s_time_layer s.s_time_font)
  let s := s.call
    (Call.text_layer_set_text_alignment s.s_time_layer GTextAlignment.GTextAlignmentCenter)
  let s := s.call (Call.text_layer_set_background_color s.s_date_layer GColor.GColorClear)
  let s := s.call (Call.text_layer_set_text_color s.s_date_layer GColor.GColorDarkCandyAppleRed)
  let s := s.call (Call.text_layer_set_text s.s_date_layer "0/0")
  let s := s.call (Call.text_layer_set_font s.s_date_layer s.s_date_font)
  let s := s.call
    (Call.text_layer_set_text_alignment s.s_date_layer GTextAlignment.GTextAlignmentCenter)
  let s := s.call (Call.layer_add_child window_layer s.s_time_layer)
  let s := s.call (Call.layer_add_child window_layer s.s_date_layer)
  load_background host.rand s

/-- Embedding of `window_unload`; the `for` loop runs `i = 0, 1, 2, 3`. -/
def window_unload (s : State) : State :=
  let s := s.call (Call.bitmap_layer_destroy s.bitmap_layer)
  let s := s.call (Call.text_layer_destroy s.s_time_layer)
  let s := s.call (Call.text_layer_destroy s.s_date_layer)
  let s := s.call (Call.fonts_unload_custom_font s.s_time_font)
  let s := s.call (Call.fonts_unload_custom_font s.s_date_font)
  (List.range 4).foldl (fun s i => s.call (Call.gbitmap_destroy (s.maz.get? i))) s

/-- Embedding of `init`.  `window_stack_push` loads the window: the host runs
the `load` handler before the call returns. -/
def init (host : Host) (env : Env) (s : State) : State :=
  let (w, s) := s.create Call.window_create
  let s := { s with window := w }
  let s := s.call (Call.window_set_window_handlers s.window)
  let s := s.call (Call.window_stack_push s.window true)
  let s := window_load host s
  let s := update_time env s
  let s := s.call Call.tick_timer_service_subscribe
  s.call Call.connection_service_subscribe

/-- Embedding of `deinit`. -/
def deinit (s : State) : State :=
  s.call (Call.window_destroy s.window)

/-! ## Host events -/

/-- An event the host delivers while the application runs. -/
inductive Event
  | tick (tick_time : Tm) (units_changed : Nat)
  | connection (connected : Bool)
  deriving DecidableEq, Repr

/-- The handler the program registered for an event, run with the answers
`env` of the host at that moment. -/
def handle (env : Env) (e : Event) (s : State) : State :=
  match e with
  | Event.tick tick_time units_changed => tick_handler env tick_time units_changed s
  | Event.connection connected => bluetooth_callback env connected s

/-- Delivery of a sequence of events, oldest first. -/
def run (events : List (Env × Event)) (s : State) : State :=
  events.foldl (fun s ev => handle ev.1 ev.2 s) s

/-! ## Renderings named by the specification -/

/-- Specification side: a number below 100 written with exactly two decimal
digits, the tens digit first (`7` is `07`). -/
def two_digits (n : Nat) : List Char :=
  [Char.ofNat (48 + n / 10), Char.ofNat (48 + n % 10)]

/-- Specification side: the time text for a clock style and a connectivity
flag: hour, `:`, minute, inside `[` `]` when not connected. -/
def spec_time (is24h connected : Bool) (t : Tm) : List Char :=
  if connected then
    two_digits (if is24h then t.tm_hour else (t.tm_hour + 11) % 12 + 1)
      ++ ':' :: two_digits t.tm_min
  else
    '[' :: (two_digits (if is24h then t.tm_hour else (t.tm_hour + 11) % 12 + 1)
      ++ ':' :: (two_digits t.tm_min ++ [']']))

/-- Specification side: the date text for a clock style: day `/` month in
24-hour style, month `/` day otherwise. -/
def spec_date (is24h : Bool) (t : Tm) : List Char :=
  if is24h then two_digits t.tm_mday ++ '/' :: two_digits (t.tm_mon + 1)
  else two_digits (t.tm_mon + 1) ++ '/' :: two_digits t.tm_mday

/-- Specification side: the argument of the most recent connectivity
callback in a sequence of events, `none` when there has been none. -/
def last_connection (events : List (Env × Event)) : Option Bool :=
  events.foldl
    (fun acc ev =>
      match ev.2 with
      | Event.connection connected => some connected
      | Event.tick _ _ => acc)
    none

/-! ## Resource accounting -/

/-- The kinds of SDK object the program creates. -/
inductive Kind
  | window
  | bitmap_layer
  | text_layer
  | font
  | bitmap
  deriving DecidableEq, Repr

/-- The object a call acquires, if it is a constructor call. -/
def acquired_by : Call → Option (Kind × Handle)
  | Call.window_create h => some (Kind.window, h)
  | Call.bitmap_layer_create _ h => some (Kind.bitmap_layer, h)
  | Call.text_layer_create _ h => some (Kind.text_layer, h)
  | Call.fonts_load_custom_font _ h => some (Kind.font, h)
  | Call.gbitmap_create_with_resource _ h => some (Kind.bitmap, h)
  | _ => none

/-- The object a call releases, if it is the destructor call matching the
kind of the object. -/
def released_by : Call → Option (Kind × Handle)
  | Call.window_destroy h => some (Kind.window, h)
  | Call.bitmap_layer_destroy h => some (Kind.bitmap_layer, h)
  | Call.text_layer_destroy h => some (Kind.text_layer, h)
  | Call.fonts_unload_custom_font h => some (Kind.font, h)
  | Call.gbitmap_destroy (some h) => some (Kind.bitmap, h)
  | _ => none

/-- The objects acquired between two states, in order of acquisition. -/
def acquired_between (s s2 : State) : List (Kind × Handle) :=
  (emitted s s2).filterMap acquired_by

/-- The objects released between two states, in order of release. -/
def released_between (s s2 : State) : List (Kind × Handle) :=
  (emitted s s2).filterMap released_by

/-- Layers and fonts, as opposed to bitmaps. -/
def is_layer_or_font (x : Kind × Handle) : Bool :=
  decide (x.1 = Kind.bitmap_layer ∨ x.1 = Kind.text_layer ∨ x.1 = Kind.font)

/-- The bitmap most recently bound to the bitmap layer, read off the last
call received by the host. -/
def bound_bitmap (s : State) : Option Handle :=
  match s.log.getLast? with
  | some (Call.bitmap_layer_set_bitmap _ b) => b
  | _ => none

/-! ## Number formatting -/

theorem fmt02_eq (n : Nat) (h : n < 100) : fmt02 n = two_digits n := by
  interval_cases n <;> rfl

theorem hour12_eq (h : Nat) : hour12 h = (h + 11) % 12 + 1 := by
  unfold hour12
  split <;> omega

theorem hour12_lt (h : Nat) : hour12 h < 100 := by
  rw [hour12_eq]
  omega

theorem digit_no_bracket (d : Nat) (h : d < 10) :
    Char.ofNat (48 + d) ≠ '[' ∧ Char.ofNat (48 + d) ≠ ']' := by
  interval_cases d <;> decide

theorem two_digits_no_bracket (n : Nat) (h : n < 100) :
    '[' ∉ two_digits n ∧ ']' ∉ two_digits n := by
  have h1 := digit_no_bracket (n / 10) (by omega)
  have h2 := digit_no_bracket (n % 10) (by omega)
  simp only [two_digits, List.mem_cons, List.mem_singleton, List.not_mem_nil, or_false, not_or]
  exact ⟨⟨h1.1.symm, h2.1.symm⟩, ⟨h1.2.symm, h2.2.symm⟩⟩

/-! ## The six formats of `update_time` -/

theorem expand_time24 (t : Tm) :
    expand "%H:%M".data t = some (fmt02 t.tm_hour ++ ':' :: fmt02 t.tm_min) := by
  show some (fmt02 t.tm_hour ++ ':' :: (fmt02 t.tm_min ++ [])) = _
  rw [List.append_nil]

theorem expand_time12 (t : Tm) :
    expand "%I:%M".data t = some (fmt02 (hour12 t.tm_hour) ++ ':' :: fmt02 t.tm_min) := by
  show some (fmt02 (hour12 t.tm_hour) ++ ':' :: (fmt02 t.tm_min ++ [])) = _
  rw [List.append_nil]

theorem expand_bracket24 (t : Tm) :
    expand "[%H:%M]".data t
      = some ('[' :: (fmt02 t.tm_hour ++ ':' :: (fmt02 t.tm_min ++ [']']))) :=
  rfl

theorem expand_bracket12 (t : Tm) :
    expand "[%I:%M]".data t
      = some ('[' :: (fmt02 (hour12 t.tm_hour) ++ ':' :: (fmt02 t.tm_min ++ [']']))) :=
  rfl

theorem expand_date24 (t : Tm) :
    expand "%d/%m".data t = some (fmt02 t.tm_mday ++ '/' :: fmt02 (t.tm_mon + 1)) := by
  show some (fmt02 t.tm_mday ++ '/' :: (fmt02 (t.tm_mon + 1) ++ [])) = _
  rw [List.append_nil]

theorem expand_date12 (t : Tm) :
    expand "%m/%d".data t = some (fmt02 (t.tm_mon + 1) ++ '/' :: fmt02 t.tm_mday) := by
  show some (fmt02 (t.tm_mon + 1) ++ '/' :: (fmt02 t.tm_mday ++ [])) = _
  rw [List.append_nil]

theorem strftime_time (is24h : Bool) (t : Tm) (hv : t.valid) :
    strftime 8 (if is24h then "%H:%M" else "%I:%M") t
      = some (String.mk (spec_time is24h true t)) := by
  obtain ⟨h1, h2, -, -, -⟩ := hv
  cases is24h
  · show strftime 8 "%I:%M" t = _
    unfold strftime
    rw [expand_time12, fmt02_eq _ (hour12_lt _), fmt02_eq t.tm_min (by omega), hour12_eq]
    rfl
  · show strftime 8 "%H:%M" t = _
    unfold strftime
    rw [expand_time24, fmt02_eq t.tm_hour (by omega), fmt02_eq t.tm_min (by omega)]
    rfl

theorem strftime_bracket (is24h : Bool) (t : Tm) (hv : t.valid) :
    strftime 8 (if is24h then "[%H:%M]" else "[%I:%M]") t
      = some (String.mk (spec_time is24h false t)) := by
  obtain ⟨h1, h2, -, -, -⟩ := hv
  cases is24h
  · show strftime 8 "[%I:%M]" t = _
    unfold strftime
    rw [expand_bracket12, fmt02_eq _ (hour12_lt _), fmt02_eq t.tm_min (by omega), hour12_eq]
    rfl
  · show strftime 8 "[%H:%M]" t = _
    unfold strftime
    rw [expand_bracket24, fmt02_eq t.tm_hour (by omega), fmt02_eq t.tm_min (by omega)]
    rfl

theorem strftime_date (is24h : Bool) (t : Tm) (hv : t.valid) :
    strftime 8 (if is24h then "%d/%m" else "%m/%d") t
      = some (String.mk (spec_date is24h t)) := by
  obtain ⟨-, -, -, h4, h5⟩ := hv
  cases is24h
  · show strftime 8 "%m/%d" t = _
    unfold strftime
    rw [expand_date12, fmt02_eq (t.tm_mon + 1) (by omega), fmt02_eq t.tm_mday (by omega)]
    rfl
  · show strftime 8 "%d/%m" t = _
    unfold strftime
    rw [expand_date24, fmt02_eq (t.tm_mon + 1) (by omega), fmt02_eq t.tm_mday (by omega)]
    rfl

/-! ## `update_time` -/

/-- At a valid local time both `strftime` calls of `update_time` succeed, and
the function stores and displays the two specified texts. -/
theorem update_time_valid (env : Env) (s : State) (hv : env.now.valid) :
    update_time env s =
      { s with
        s_buffer := String.mk (spec_time env.is24h s.isConnected env.now)
        date_buffer := String.mk (spec_date env.is24h env.now)
        log := s.log ++
          [Call.text_layer_set_text s.s_time_layer
              (String.mk (spec_time env.is24h s.isConnected env.now)),
            Call.text_layer_set_text s.s_date_layer
              (String.mk (spec_date env.is24h env.now))] } := by
  unfold update_time
  simp only [strftime_time _ _ hv, strftime_bracket _ _ hv, strftime_date _ _ hv, State.call]
  cases hc : s.isConnected <;> simp [hc]

theorem update_time_isConnected (env : Env) (s : State) :
    (update_time env s).isConnected = s.isConnected := by
  unfold update_time
  simp only [State.call]
  split <;> split <;> split <;> rfl

theorem emitted_append (s s2 : State) (l : List Call) (h : s2.log = s.log ++ l) :
    emitted s s2 = l := by
  unfold emitted
  rw [h]
  exact List.drop_left _ _

theorem update_time_emitted (env : Env) (s : State) (hv : env.now.valid) :
    emitted s (update_time env s)
      = [Call.text_layer_set_text s.s_time_layer (update_time env s).s_buffer,
          Call.text_layer_set_text s.s_date_layer (update_time env s).date_buffer] := by
  apply emitted_append
  rw [update_time_valid env s hv]

theorem spec_time_length (is24h connected : Bool) (t : Tm) :
    (spec_time is24h connected t).length = if connected then 5 else 7 := by
  cases connected <;> rfl

theorem spec_date_length (is24h : Bool) (t : Tm) : (spec_date is24h t).length = 5 := by
  cases is24h <;> rfl

/-! ## Rendering claims -/

/-- C1: at every valid local time, in 24-hour style and for either value of
the connectivity flag, `update_time` sets the date text to the two-digit day,
`/`, the two-digit month (`tm_mon + 1`, the month 1..12), and when connected
sets the time text to the two-digit hour, `:`, the two-digit minute; each
text is the one handed to `text_layer_set_text` for its layer. -/
theorem update_time_24h (env : Env) (s : State) (hv : env.now.valid)
    (h24 : env.is24h = true) :
    (update_time env s).date_buffer
        = String.mk (two_digits env.now.tm_mday ++ '/' :: two_digits (env.now.tm_mon + 1)) ∧
    (s.isConnected = true →
      (update_time env s).s_buffer
        = String.mk (two_digits env.now.tm_hour ++ ':' :: two_digits env.now.tm_min)) ∧
    emitted s (update_time env s)
      = [Call.text_layer_set_text s.s_time_layer (update_time env s).s_buffer,
          Call.text_layer_set_text s.s_date_layer (update_time env s).date_buffer] := by
  refine ⟨?_, ?_, update_time_emitted env s hv⟩
  · rw [update_time_valid env s hv]
    simp [spec_date, h24]
  · intro hc
    rw [update_time_valid env s hv]
    simp [spec_time, h24, hc]

/-- Witness for C1: 09:41 on day 15 of month 3, 24-hour style, connected,
gives the time `09:41` and the date `15/03`. -/
theorem update_time_24h_witness :
    (Env.mk ⟨0, 41, 9, 15, 2⟩ true).now.valid ∧
    (update_time (Env.mk ⟨0, 41, 9, 15, 2⟩ true) program_start).date_buffer = "15/03" ∧
    program_start.isConnected = true ∧
    (update_time (Env.mk ⟨0, 41, 9, 15, 2⟩ true) program_start).s_buffer = "09:41" ∧
    emitted program_start (update_time (Env.mk ⟨0, 41, 9, 15, 2⟩ true) program_start)
      = [Call.text_layer_set_text 0 "09:41", Call.text_layer_set_text 0 "15/03"] :=
  ⟨by decide,
    (update_time_24h (Env.mk ⟨0, 41, 9, 15, 2⟩ true) program_start (by decide) rfl).1,
    rfl,
    (update_time_24h (Env.mk ⟨0, 41, 9, 15, 2⟩ true) program_start (by decide) rfl).2.1 rfl,
    (update_time_24h (Env.mk ⟨0, 41, 9, 15, 2⟩ true) program_start (by decide) rfl).2.2⟩

/-- C2: at every valid local time, in 12-hour style, `update_time` sets the
date text to the two-digit month, `/`, the two-digit day, and when connected
sets the time text to the two-digit hour `((h + 11) mod 12) + 1`, `:`, the
two-digit minute; the hour shown lies in 1..12. -/
theorem update_time_12h (env : Env) (s : State) (hv : env.now.valid)
    (h12 : env.is24h = false) :
    (s.isConnected = true →
      (update_time env s).s_buffer
        = String.mk (two_digits ((env.now.tm_hour + 11) % 12 + 1)
            ++ ':' :: two_digits env.now.tm_min)) ∧
    (update_time env s).date_buffer
        = String.mk (two_digits (env.now.tm_mon + 1) ++ '/' :: two_digits env.now.tm_mday) ∧
    emitted s (update_time env s)
      = [Call.text_layer_set_text s.s_time_layer (update_time env s).s_buffer,
          Call.text_layer_set_text s.s_date_layer (update_time env s).date_buffer] ∧
    1 ≤ (env.now.tm_hour + 11) % 12 + 1 ∧ (env.now.tm_hour + 11) % 12 + 1 ≤ 12 := by
  refine ⟨?_, ?_, update_time_emitted env s hv, by omega, by omega⟩
  · intro hc
    rw [update_time_valid env s hv]
    simp [spec_time, h12, hc]
  · rw [update_time_valid env s hv]
    simp [spec_date, h12]

/-- Witness for C2: 21:05 on month 3, day 15, 12-hour style, connected,
gives the time `09:05` and the date `03/15`; at 00:05 and at 12:05 the time
text is `12:05`. -/
theorem update_time_12h_witness :
    (Env.mk ⟨0, 5, 21, 15, 2⟩ false).now.valid ∧
    program_start.isConnected = true ∧
    (update_time (Env.mk ⟨0, 5, 21, 15, 2⟩ false) program_start).s_buffer = "09:05" ∧
    (update_time (Env.mk ⟨0, 5, 21, 15, 2⟩ false) program_start).date_buffer = "03/15" ∧
    emitted program_start (update_time (Env.mk ⟨0, 5, 21, 15, 2⟩ false) program_start)
      = [Call.text_layer_set_text 0 "09:05", Call.text_layer_set_text 0 "03/15"] ∧
    (update_time (Env.mk ⟨0, 5, 0, 15, 2⟩ false) program_start).s_buffer = "12:05" ∧
    (update_time (Env.mk ⟨0, 5, 12, 15, 2⟩ false) program_start).s_buffer = "12:05" :=
  ⟨by decide, rfl,
    (update_time_12h (Env.mk ⟨0, 5, 21, 15, 2⟩ false) program_start (by decide) rfl).1 rfl,
    (update_time_12h (Env.mk ⟨0, 5, 21, 15, 2⟩ false) program_start (by decide) rfl).2.1,
    (update_time_12h (Env.mk ⟨0, 5, 21, 15, 2⟩ false) program_start (by decide) rfl).2.2.1,
    (update_time_12h (Env.mk ⟨0, 5, 0, 15, 2⟩ false) program_start (by decide) rfl).1 rfl,
    (update_time_12h (Env.mk ⟨0, 5, 12, 15, 2⟩ false) program_start (by decide) rfl).1 rfl⟩

theorem spec_time_no_bracket (is24h : Bool) (t : Tm) (hv : t.valid) :
    '[' ∉ spec_time is24h true t ∧ ']' ∉ spec_time is24h true t := by
  obtain ⟨h1, h2, -, -, -⟩ := hv
  have hh := two_digits_no_bracket (if is24h then t.tm_hour else (t.tm_hour + 11) % 12 + 1)
    (by split <;> omega)
  have hm := two_digits_no_bracket t.tm_min (by omega)
  have c1 : ¬ '[' = ':' := by decide
  have c2 : ¬ ']' = ':' := by decide
  simp only [spec_time, if_true, List.mem_append, List.mem_cons, not_or]
  exact ⟨⟨hh.1, c1, hm.1⟩, ⟨hh.2, c2, hm.2⟩⟩

/-- C3: at every valid local time and in both clock styles, the time text
`update_time` produces with the connectivity flag false is `[`, then the
text it produces with the flag true, then `]`; the text produced with the
flag true contains neither `[` nor `]`; in both cases that text is the one
handed to `text_layer_set_text` for the time layer. -/
theorem update_time_brackets (env : Env) (s : State) (hv : env.now.valid) :
    (update_time env { s with isConnected := false }).s_buffer
      = "[" ++ (update_time env { s with isConnected := true }).s_buffer ++ "]" ∧
    '[' ∉ (update_time env { s with isConnected := true }).s_buffer.data ∧
    ']' ∉ (update_time env { s with isConnected := true }).s_buffer.data ∧
    (emitted { s with isConnected := false }
        (update_time env { s with isConnected := false })).head?
      = some (Call.text_layer_set_text s.s_time_layer
          (update_time env { s with isConnected := false }).s_buffer) ∧
    (emitted { s with isConnected := true }
        (update_time env { s with isConnected := true })).head?
      = some (Call.text_layer_set_text s.s_time_layer
          (update_time env { s with isConnected := true }).s_buffer) := by
  have hb := spec_time_no_bracket env.is24h env.now hv
  refine ⟨?_, ?_, ?_, ?_, ?_⟩
  · rw [update_time_valid _ _ hv, update_time_valid _ _ hv]
    rfl
  · rw [update_time_valid _ _ hv]
    exact hb.1
  · rw [update_time_valid _ _ hv]
    exact hb.2
  · rw [update_time_emitted _ _ hv]
    rfl
  · rw [update_time_emitted _ _ hv]
    rfl

/-- Witness for C3: 09:41 in 24-hour style gives `[09:41]` when
disconnected and `09:41` when connected. -/
theorem update_time_brackets_witness :
    (Env.mk ⟨0, 41, 9, 15, 2⟩ true).now.valid ∧
    (update_time (Env.mk ⟨0, 41, 9, 15, 2⟩ true)
        { program_start with isConnected := false }).s_buffer = "[09:41]" ∧
    (update_time (Env.mk ⟨0, 41, 9, 15, 2⟩ true)
        { program_start with isConnected := true }).s_buffer = "09:41" ∧
    (update_time (Env.mk ⟨0, 41, 9, 15, 2⟩ true) { program_start with isConnected := false }).s_buffer
      = "[" ++ (update_time (Env.mk ⟨0, 41, 9, 15, 2⟩ true)
          { program_start with isConnected := true }).s_buffer ++ "]" :=
  ⟨by decide, by decide, by decide,
    (update_time_brackets (Env.mk ⟨0, 41, 9, 15, 2⟩ true) program_start (by decide)).1⟩

/-- C10: at every valid local time, in both clock styles and for both values
of the connectivity flag, every `strftime` call of `update_time` succeeds in
its 8-byte buffer: the connected time formats give 5 characters, the
bracketed ones 7 (they would not fit in 7 bytes), the date formats 5; so the
time text has length 5 when connected and 7 when not, the date text has
length 5, and neither exceeds 7. -/
theorem update_time_fits (env : Env) (s : State) (hv : env.now.valid) :
    (strftime 8 (if env.is24h then "%H:%M" else "%I:%M") env.now).map String.length = some 5 ∧
    (strftime 8 (if env.is24h then "[%H:%M]" else "[%I:%M]") env.now).map String.length
      = some 7 ∧
    strftime 7 (if env.is24h then "[%H:%M]" else "[%I:%M]") env.now = none ∧
    (strftime 8 (if env.is24h then "%d/%m" else "%m/%d") env.now).map String.length = some 5 ∧
    (update_time env s).s_buffer.length = (if s.isConnected then 5 else 7) ∧
    (update_time env s).date_buffer.length = 5 ∧
    (update_time env s).s_buffer.length ≤ 7 ∧
    (update_time env s).date_buffer.length ≤ 7 := by
  have ht : (update_time env s).s_buffer.length = (if s.isConnected then 5 else 7) := by
    rw [update_time_valid env s hv]
    exact spec_time_length _ _ _
  have hd : (update_time env s).date_buffer.length = 5 := by
    rw [update_time_valid env s hv]
    exact spec_date_length _ _
  refine ⟨?_, ?_, ?_, ?_, ht, hd, ?_, ?_⟩
  · rw [strftime_time _ _ hv]
    exact congrArg some (spec_time_length _ true _)
  · rw [strftime_bracket _ _ hv]
    exact congrArg some (spec_time_length _ false _)
  · obtain ⟨h1, h2, -, -, -⟩ := hv
    cases env.is24h
    · show strftime 7 "[%I:%M]" env.now = none
      unfold strftime
      rw [expand_bracket12, fmt02_eq _ (hour12_lt _), fmt02_eq env.now.tm_min (by omega)]
      rfl
    · show strftime 7 "[%H:%M]" env.now = none
      unfold strftime
      rw [expand_bracket24, fmt02_eq env.now.tm_hour (by omega),
        fmt02_eq env.now.tm_min (by omega)]
      rfl
  · rw [strftime_date _ _ hv]
    exact congrArg some (spec_date_length _ _)
  · rw [ht]
    split <;> omega
  · omega

/-- Witness for C10: 23:59 on 31 December, 12-hour style, disconnected: the
time text `[11:59]` has 7 characters and the date text `12/31` has 5. -/
theorem update_time_fits_witness :
    (Env.mk ⟨0, 59, 23, 31, 11⟩ false).now.valid ∧
    (update_time (Env.mk ⟨0, 59, 23, 31, 11⟩ false)
        { program_start with isConnected := false }).s_buffer = "[11:59]" ∧
    (update_time (Env.mk ⟨0, 59, 23, 31, 11⟩ false)
        { program_start with isConnected := false }).s_buffer.length = 7 ∧
    (update_time (Env.mk ⟨0, 59, 23, 31, 11⟩ false)
        { program_start with isConnected := false }).date_buffer.length = 5 :=
  ⟨by decide, by decide,
    (update_time_fits (Env.mk ⟨0, 59, 23, 31, 11⟩ false)
      { program_start with isConnected := false } (by decide)).2.2.2.2.1,
    (update_time_fits (Env.mk ⟨0, 59, 23, 31, 11⟩ false)
      { program_start with isConnected := false } (by decide)).2.2.2.2.2.1⟩

/-! ## Connectivity -/

/-- Whatever the time, `update_time` makes exactly two calls: it hands the
time buffer to the time layer, then the date buffer to the date layer. -/
theorem update_time_log (env : Env) (s : State) :
    (update_time env s).log
      = s.log ++ [Call.text_layer_set_text s.s_time_layer (update_time env s).s_buffer,
          Call.text_layer_set_text s.s_date_layer (update_time env s).date_buffer] := by
  unfold update_time
  simp only [State.call]
  split <;> split <;> split <;> simp

theorem bluetooth_callback_isConnected (env : Env) (connected : Bool) (s : State) :
    (bluetooth_callback env connected s).isConnected = connected := by
  cases connected <;> simp [bluetooth_callback, update_time_isConnected, State.call]

/-- C4: for every prior value of the flag, `bluetooth_callback(false)` makes
exactly one `vibes_double_pulse` call and then runs `update_time` exactly
once, on the state in which the flag is already false, so the time text
shown is the bracketed one; `bluetooth_callback(true)` makes no
`vibes_double_pulse` call and runs `update_time` exactly once with the flag
true, so the time text shown has no brackets. -/
theorem bluetooth_callback_effects (env : Env) (s : State) (hv : env.now.valid) :
    bluetooth_callback env false s
      = update_time env (({ s with isConnected := false } : State).call
          Call.vibes_double_pulse) ∧
    emitted s (bluetooth_callback env false s)
      = [Call.vibes_double_pulse,
          Call.text_layer_set_text s.s_time_layer (bluetooth_callback env false s).s_buffer,
          Call.text_layer_set_text s.s_date_layer (bluetooth_callback env false s).date_buffer] ∧
    (emitted s (bluetooth_callback env false s)).count Call.vibes_double_pulse = 1 ∧
    (bluetooth_callback env false s).s_buffer
      = "[" ++ (update_time env { s with isConnected := true }).s_buffer ++ "]" ∧
    bluetooth_callback env true s = update_time env { s with isConnected := true } ∧
    emitted s (bluetooth_callback env true s)
      = [Call.text_layer_set_text s.s_time_layer (bluetooth_callback env true s).s_buffer,
          Call.text_layer_set_text s.s_date_layer (bluetooth_callback env true s).date_buffer] ∧
    (emitted s (bluetooth_callback env true s)).count Call.vibes_double_pulse = 0 ∧
    '[' ∉ (bluetooth_callback env true s).s_buffer.data ∧
    ']' ∉ (bluetooth_callback env true s).s_buffer.data := by
  have hf : bluetooth_callback env false s
      = update_time env (({ s with isConnected := false } : State).call
          Call.vibes_double_pulse) := rfl
  have ht : bluetooth_callback env true s = update_time env { s with isConnected := true } :=
    rfl
  have ef : emitted s (bluetooth_callback env false s)
      = [Call.vibes_double_pulse,
          Call.text_layer_set_text s.s_time_layer (bluetooth_callback env false s).s_buffer,
          Call.text_layer_set_text s.s_date_layer
            (bluetooth_callback env false s).date_buffer] := by
    apply emitted_append
    rw [hf, update_time_log]
    simp [State.call]
  have et : emitted s (bluetooth_callback env true s)
      = [Call.text_layer_set_text s.s_time_layer (bluetooth_callback env true s).s_buffer,
          Call.text_layer_set_text s.s_date_layer
            (bluetooth_callback env true s).date_buffer] := by
    apply emitted_append
    rw [ht, update_time_log]
  have hb := spec_time_no_bracket env.is24h env.now hv
  refine ⟨hf, ef, ?_, ?_, ht, et, ?_, ?_, ?_⟩
  · rw [ef]
    simp [List.count_cons]
  · rw [hf, update_time_valid _ _ hv, update_time_valid _ _ hv]
    rfl
  · rw [et]
    simp [List.count_cons]
  · rw [ht, update_time_valid _ _ hv]
    exact hb.1
  · rw [ht, update_time_valid _ _ hv]
    exact hb.2

/-- Witness for C4: at 09:41, 24-hour style, from the connected state, a
disconnect callback vibrates once and shows `[09:41]`. -/
theorem bluetooth_callback_effects_witness :
    (Env.mk ⟨0, 41, 9, 15, 2⟩ true).now.valid ∧
    emitted program_start (bluetooth_callback (Env.mk ⟨0, 41, 9, 15, 2⟩ true) false program_start)
      = [Call.vibes_double_pulse, Call.text_layer_set_text 0 "[09:41]",
          Call.text_layer_set_text 0 "15/03"] ∧
    (emitted program_start
      (bluetooth_callback (Env.mk ⟨0, 41, 9, 15, 2⟩ true) false program_start)).count
        Call.vibes_double_pulse = 1 :=
  ⟨by decide, by decide,
    (bluetooth_callback_effects (Env.mk ⟨0, 41, 9, 15, 2⟩ true) program_start
      (by decide)).2.2.1⟩

theorem tick_handler_isConnected (env : Env) (tick_time : Tm) (units_changed : Nat)
    (s : State) : (tick_handler env tick_time units_changed s).isConnected = s.isConnected :=
  update_time_isConnected env s

theorem run_append (l : List (Env × Event)) (ev : Env × Event) (s : State) :
    run (l ++ [ev]) s = handle ev.1 ev.2 (run l s) := by
  simp [run, List.foldl_append]

theorem last_connection_append (l : List (Env × Event)) (ev : Env × Event) :
    last_connection (l ++ [ev])
      = match ev.2 with
        | Event.connection connected => some connected
        | Event.tick _ _ => last_connection l := by
  simp [last_connection, List.foldl_append]

theorem run_isConnected (events : List (Env × Event)) (s : State) :
    (run events s).isConnected = (last_connection events).getD s.isConnected := by
  induction events using List.reverseRecOn with
  | nil => rfl
  | append_singleton l ev ih =>
    rw [run_append, last_connection_append]
    obtain ⟨env, e⟩ := ev
    cases e with
    | tick t u => simpa [handle, tick_handler_isConnected] using ih
    | connection c => simp [handle, bluetooth_callback_isConnected]

theorem load_background_isConnected (r : Nat) (s : State) :
    (load_background r s).isConnected = s.isConnected := rfl

theorem window_load_isConnected (host : Host) (s : State) :
    (window_load host s).isConnected = s.isConnected := rfl

theorem init_isConnected (host : Host) (env : Env) (s : State) :
    (init host env s).isConnected = s.isConnected := by
  simp [init, State.call, State.create, update_time_isConnected, window_load_isConnected]

/-- C5: after `init` and any finite sequence of timer ticks and connectivity
callbacks (arbitrary arguments, arbitrary host answers), `isConnected` is
the argument of the most recent connectivity callback, or `true` when there
has been none; the same holds from the state at program start; and neither
`tick_handler` nor `update_time` changes the flag. -/
theorem isConnected_tracks_last_callback (host : Host) (env0 : Env)
    (events : List (Env × Event)) :
    (run events (init host env0 program_start)).isConnected
      = (last_connection events).getD true ∧
    (run events program_start).isConnected = (last_connection events).getD true ∧
    (∀ (env : Env) (tick_time : Tm) (units_changed : Nat) (s : State),
      (tick_handler env tick_time units_changed s).isConnected = s.isConnected) ∧
    (∀ (env : Env) (s : State), (update_time env s).isConnected = s.isConnected) := by
  refine ⟨?_, ?_, tick_handler_isConnected, update_time_isConnected⟩
  · rw [run_isConnected, init_isConnected]
    rfl
  · rw [run_isConnected]
    rfl

/-- C6, as stated, fails: from the connected state a callback with argument
`true` leaves the flag `true`, which is not the negation of the prior
value. -/
theorem bluetooth_callback_not_flip :
    program_start.isConnected = true ∧
    (bluetooth_callback (Env.mk ⟨0, 41, 9, 15, 2⟩ true) true program_start).isConnected
      ≠ !program_start.isConnected := by
  decide

/-- C6, amended: after `bluetooth_callback(connected)` the flag equals
`connected`, whatever it was before; it is the negation of the prior value
exactly when the argument differs from the prior value. -/
theorem bluetooth_callback_sets_flag (env : Env) (connected : Bool) (s : State) :
    (bluetooth_callback env connected s).isConnected = connected ∧
    ((bluetooth_callback env connected s).isConnected = !s.isConnected
      ↔ connected ≠ s.isConnected) := by
  rw [bluetooth_callback_isConnected]
  cases connected <;> cases s.isConnected <;> simp

/-! ## Resource accounting: load and unload -/

theorem maz_set_all (a : Maz) (x y z w : Handle) :
    ((((a.set 0 x).set 1 y).set 2 z).set 3 w).cells = [x, y, z, w] := by
  obtain ⟨cells, hlen⟩ := a
  match cells, hlen with
  | [_, _, _, _], _ => rfl

theorem load_background_maz (r : Nat) (s : State) :
    (load_background r s).maz.cells = [s.next, s.next + 1, s.next + 2, s.next + 3] := by
  simp only [load_background, State.create, State.call]
  exact maz_set_all _ _ _ _ _

theorem window_load_maz (host : Host) (s : State) :
    (window_load host s).maz.cells
      = [s.next + 5, s.next + 6, s.next + 7, s.next + 8] := by
  simp only [window_load]
  rw [load_background_maz]
  simp [State.create, State.call]

theorem window_load_handles (host : Host) (s : State) :
    (window_load host s).bitmap_layer = s.next ∧
    (window_load host s).s_time_layer = s.next + 1 ∧
    (window_load host s).s_date_layer = s.next + 2 ∧
    (window_load host s).s_time_font = s.next + 3 ∧
    (window_load host s).s_date_font = s.next + 4 :=
  ⟨rfl, rfl, rfl, rfl, rfl⟩

theorem window_load_acquired (host : Host) (s : State) :
    acquired_between s (window_load host s)
      = [(Kind.bitmap_layer, s.next), (Kind.text_layer, s.next + 1),
          (Kind.text_layer, s.next + 2), (Kind.font, s.next + 3), (Kind.font, s.next + 4),
          (Kind.bitmap, s.next + 5), (Kind.bitmap, s.next + 6), (Kind.bitmap, s.next + 7),
          (Kind.bitmap, s.next + 8)] := by
  unfold acquired_between
  rw [emitted_append s (window_load host s) _ (by
    simp only [window_load, load_background, State.create, State.call, List.append_assoc]
    rfl)]
  simp [acquired_by]

theorem window_load_released (host : Host) (s : State) :
    released_between s (window_load host s) = [] := by
  unfold released_between
  rw [emitted_append s (window_load host s) _ (by
    simp only [window_load, load_background, State.create, State.call, List.append_assoc]
    rfl)]
  simp [released_by]

theorem window_unload_log (s : State) :
    (window_unload s).log
      = s.log ++ [Call.bitmap_layer_destroy s.bitmap_layer,
          Call.text_layer_destroy s.s_time_layer, Call.text_layer_destroy s.s_date_layer,
          Call.fonts_unload_custom_font s.s_time_font,
          Call.fonts_unload_custom_font s.s_date_font,
          Call.gbitmap_destroy (s.maz.get? 0), Call.gbitmap_destroy (s.maz.get? 1),
          Call.gbitmap_destroy (s.maz.get? 2), Call.gbitmap_destroy (s.maz.get? 3)] := by
  simp [window_unload, State.call, List.range_succ]

theorem window_unload_released (host : Host) (s : State) :
    released_between (window_load host s) (window_unload (window_load host s))
      = [(Kind.bitmap_layer, s.next), (Kind.text_layer, s.next + 1),
          (Kind.text_layer, s.next + 2), (Kind.font, s.next + 3), (Kind.font, s.next + 4),
          (Kind.bitmap, s.next + 5), (Kind.bitmap, s.next + 6), (Kind.bitmap, s.next + 7),
          (Kind.bitmap, s.next + 8)] := by
  unfold released_between
  rw [emitted_append _ _ _ (window_unload_log (window_load host s))]
  obtain ⟨h1, h2, h3, h4, h5⟩ := window_load_handles host s
  rw [h1, h2, h3, h4, h5]
  simp [released_by, Maz.get?, window_load_maz]

theorem window_unload_acquired (s : State) :
    acquired_between s (window_unload s) = [] := by
  unfold acquired_between
  rw [emitted_append _ _ _ (window_unload_log s)]
  simp [acquired_by]

theorem maz_get_fresh (n i : Nat) (hi : i < 4) :
    [n, n + 1, n + 2, n + 3][i]? = some (n + i) := by
  interval_cases i <;> rfl

/-- Every call `load_background` makes, in order. -/
theorem load_background_log (r : Nat) (s : State) :
    (load_background r s).log
      = s.log ++
        [Call.gbitmap_create_with_resource ResourceId.RESOURCE_ID_IMAGE_MAZDA_0 s.next,
          Call.gbitmap_create_with_resource ResourceId.RESOURCE_ID_IMAGE_MAZDA_1 (s.next + 1),
          Call.gbitmap_create_with_resource ResourceId.RESOURCE_ID_IMAGE_MAZDA_2 (s.next + 2),
          Call.gbitmap_create_with_resource ResourceId.RESOURCE_ID_IMAGE_MAZDA_3 (s.next + 3),
          Call.bitmap_layer_set_bitmap s.bitmap_layer (some (s.next + r % 4))] := by
  simp only [load_background, State.create, State.call, List.append_assoc, Maz.get?,
    maz_set_all]
  rw [maz_get_fresh s.next (r % 4) (Nat.mod_lt _ (by decide))]
  rfl

/-- Every call `window_load` makes, in order. -/
theorem window_load_log (host : Host) (s : State) :
    (window_load host s).log
      = s.log ++
        [Call.bitmap_layer_create host.bounds s.next,
          Call.layer_add_child host.root_layer s.next,
          Call.text_layer_create
            ⟨0, if host.round then 6 else 0, host.bounds.w, host.bounds.h⟩ (s.next + 1),
          Call.text_layer_create
            ⟨0, if host.round then 150 else 138, host.bounds.w, host.bounds.h⟩ (s.next + 2),
          Call.fonts_load_custom_font ResourceId.RESOURCE_ID_FONT_COOPER_28 (s.next + 3),
          Call.fonts_load_custom_font ResourceId.RESOURCE_ID_FONT_CONTRAIL_18 (s.next + 4),
          Call.text_layer_set_background_color (s.next + 1) GColor.GColorClear,
          Call.text_layer_set_text_color (s.next + 1) GColor.GColorBlack,
          Call.text_layer_set_text (s.next + 1) "00:00",
          Call.text_layer_set_font (s.next + 1) (s.next + 3),
          Call.text_layer_set_text_alignment (s.next + 1) GTextAlignment.GTextAlignmentCenter,
          Call.text_layer_set_background_color (s.next + 2) GColor.GColorClear,
          Call.text_layer_set_text_color (s.next + 2) GColor.GColorDarkCandyAppleRed,
          Call.text_layer_set_text (s.next + 2) "0/0",
          Call.text_layer_set_font (s.next + 2) (s.next + 4),
          Call.text_layer_set_text_alignment (s.next + 2) GTextAlignment.GTextAlignmentCenter,
          Call.layer_add_child host.root_layer (s.next + 1),
          Call.layer_add_child host.root_layer (s.next + 2),
          Call.gbitmap_create_with_resource ResourceId.RESOURCE_ID_IMAGE_MAZDA_0 (s.next + 5),
          Call.gbitmap_create_with_resource ResourceId.RESOURCE_ID_IMAGE_MAZDA_1 (s.next + 6),
          Call.gbitmap_create_with_resource ResourceId.RESOURCE_ID_IMAGE_MAZDA_2 (s.next + 7),
          Call.gbitmap_create_with_resource ResourceId.RESOURCE_ID_IMAGE_MAZDA_3 (s.next + 8),
          Call.bitmap_layer_set_bitmap s.next (some (s.next + 5 + host.rand % 4))] := by
  simp only [window_load]
  rw [load_background_log]
  simp only [State.create, State.call, List.append_assoc]
  rfl

/-- Every call `window_unload` makes after `window_load`, in order: nine
destructor calls, each on an object the load created. -/
theorem window_unload_after_load_log (host : Host) (s : State) :
    emitted (window_load host s) (window_unload (window_load host s))
      = [Call.bitmap_layer_destroy s.next,
          Call.text_layer_destroy (s.next + 1), Call.text_layer_destroy (s.next + 2),
          Call.fonts_unload_custom_font (s.next + 3),
          Call.fonts_unload_custom_font (s.next + 4),
          Call.gbitmap_destroy (some (s.next + 5)), Call.gbitmap_destroy (some (s.next + 6)),
          Call.gbitmap_destroy (some (s.next + 7)),
          Call.gbitmap_destroy (some (s.next + 8))] := by
  rw [emitted_append _ _ _ (window_unload_log (window_load host s))]
  obtain ⟨h1, h2, h3, h4, h5⟩ := window_load_handles host s
  rw [h1, h2, h3, h4, h5]
  simp [Maz.get?, window_load_maz]

/-- C7: with every constructor call returning a fresh handle, `window_load`
(which runs `load_background`) followed by `window_unload` releases each
object acquired during the load exactly once, by the destructor of its kind:
the nine acquired objects (the bitmap layer, the two text layers, the two
fonts and the bitmaps `maz[0..3]`) are pairwise distinct, the objects
released form a permutation of them and no object is released twice, an
object is released if and only if it was acquired, the load releases nothing
and the unload acquires nothing; the layer and font globals and the four
cells of `maz` hold acquired objects of their kind.  The calls of both
functions are stated in full: the load makes the 23 listed calls, none of
them a destructor call, and the unload makes exactly nine calls, all
destructor calls, the `i`-th releasing the `i`-th acquired object, so that
nothing is released that the load did not acquire. -/
theorem window_load_unload_balanced (host : Host) (s : State) :
    (acquired_between s (window_load host s)).Nodup ∧
    (acquired_between s (window_load host s)).length = 9 ∧
    (released_between (window_load host s) (window_unload (window_load host s))).Perm
      (acquired_between s (window_load host s)) ∧
    (released_between (window_load host s) (window_unload (window_load host s))).Nodup ∧
    (∀ x : Kind × Handle,
      x ∈ released_between (window_load host s) (window_unload (window_load host s))
        ↔ x ∈ acquired_between s (window_load host s)) ∧
    released_between s (window_load host s) = [] ∧
    acquired_between (window_load host s) (window_unload (window_load host s)) = [] ∧
    (Kind.bitmap_layer, (window_load host s).bitmap_layer)
      ∈ acquired_between s (window_load host s) ∧
    (Kind.text_layer, (window_load host s).s_time_layer)
      ∈ acquired_between s (window_load host s) ∧
    (Kind.text_layer, (window_load host s).s_date_layer)
      ∈ acquired_between s (window_load host s) ∧
    (Kind.font, (window_load host s).s_time_font)
      ∈ acquired_between s (window_load host s) ∧
    (Kind.font, (window_load host s).s_date_font)
      ∈ acquired_between s (window_load host s) ∧
    (window_load host s).maz.cells.map (fun h => (Kind.bitmap, h))
      = (acquired_between s (window_load host s)).filter
          (fun x => decide (x.1 = Kind.bitmap)) ∧
    emitted s (window_load host s)
      = [Call.bitmap_layer_create host.bounds s.next,
          Call.layer_add_child host.root_layer s.next,
          Call.text_layer_create
            ⟨0, if host.round then 6 else 0, host.bounds.w, host.bounds.h⟩ (s.next + 1),
          Call.text_layer_create
            ⟨0, if host.round then 150 else 138, host.bounds.w, host.bounds.h⟩ (s.next + 2),
          Call.fonts_load_custom_font ResourceId.RESOURCE_ID_FONT_COOPER_28 (s.next + 3),
          Call.fonts_load_custom_font ResourceId.RESOURCE_ID_FONT_CONTRAIL_18 (s.next + 4),
          Call.text_layer_set_background_color (s.next + 1) GColor.GColorClear,
          Call.text_layer_set_text_color (s.next + 1) GColor.GColorBlack,
          Call.text_layer_set_text (s.next + 1) "00:00",
          Call.text_layer_set_font (s.next + 1) (s.next + 3),
          Call.text_layer_set_text_alignment (s.next + 1) GTextAlignment.GTextAlignmentCenter,
          Call.text_layer_set_background_color (s.next + 2) GColor.GColorClear,
          Call.text_layer_set_text_color (s.next + 2) GColor.GColorDarkCandyAppleRed,
          Call.text_layer_set_text (s.next + 2) "0/0",
          Call.text_layer_set_font (s.next + 2) (s.next + 4),
          Call.text_layer_set_text_alignment (s.next + 2) GTextAlignment.GTextAlignmentCenter,
          Call.layer_add_child host.root_layer (s.next + 1),
          Call.layer_add_child host.root_layer (s.next + 2),
          Call.gbitmap_create_with_resource ResourceId.RESOURCE_ID_IMAGE_MAZDA_0 (s.next + 5),
          Call.gbitmap_create_with_resource ResourceId.RESOURCE_ID_IMAGE_MAZDA_1 (s.next + 6),
          Call.gbitmap_create_with_resource ResourceId.RESOURCE_ID_IMAGE_MAZDA_2 (s.next + 7),
          Call.gbitmap_create_with_resource ResourceId.RESOURCE_ID_IMAGE_MAZDA_3 (s.next + 8),
          Call.bitmap_layer_set_bitmap s.next (some (s.next + 5 + host.rand % 4))] ∧
    emitted (window_load host s) (window_unload (window_load host s))
      = [Call.bitmap_layer_destroy s.next,
          Call.text_layer_destroy (s.next + 1), Call.text_layer_destroy (s.next + 2),
          Call.fonts_unload_custom_font (s.next + 3),
          Call.fonts_unload_custom_font (s.next + 4),
          Call.gbitmap_destroy (some (s.next + 5)), Call.gbitmap_destroy (some (s.next + 6)),
          Call.gbitmap_destroy (some (s.next + 7)),
          Call.gbitmap_destroy (some (s.next + 8))] ∧
    (emitted (window_load host s) (window_unload (window_load host s))).map released_by
      = (acquired_between s (window_load host s)).map some := by
  have hnd : (acquired_between s (window_load host s)).Nodup := by
    rw [window_load_acquired]
    simp
  obtain ⟨h1, h2, h3, h4, h5⟩ := window_load_handles host s
  have heq : released_between (window_load host s) (window_unload (window_load host s))
      = acquired_between s (window_load host s) := by
    rw [window_unload_released, window_load_acquired]
  refine ⟨hnd, ?_, ?_, ?_, ?_, window_load_released host s, window_unload_acquired _,
    ?_, ?_, ?_, ?_, ?_, ?_, emitted_append _ _ _ (window_load_log host s),
    window_unload_after_load_log host s, ?_⟩
  · rw [window_load_acquired]
    rfl
  · rw [heq]
  · rw [heq]
    exact hnd
  · intro x
    rw [heq]
  · rw [h1, window_load_acquired]
    simp
  · rw [h2, window_load_acquired]
    simp
  · rw [h3, window_load_acquired]
    simp
  · rw [h4, window_load_acquired]
    simp
  · rw [h5, window_load_acquired]
    simp
  · rw [window_load_acquired, window_load_maz]
    simp [List.filter]
  · rw [window_unload_after_load_log, window_load_acquired]
    rfl

/-- C8, as stated, fails: from program start the layers and fonts are
released in the order bitmap layer, time layer, date layer, time font, date
font, which is not the reverse of the order of acquisition. -/
theorem window_unload_not_reverse :
    (released_between (window_load (Host.mk false 0 ⟨0, 0, 144, 168⟩ 0) program_start)
        (window_unload (window_load (Host.mk false 0 ⟨0, 0, 144, 168⟩ 0)
          program_start))).filter is_layer_or_font
      ≠ ((acquired_between program_start
          (window_load (Host.mk false 0 ⟨0, 0, 144, 168⟩ 0) program_start)).filter
            is_layer_or_font).reverse := by
  rw [window_unload_released, window_load_acquired]
  decide

/-- C8, amended: `window_unload` releases the layers and fonts in the same
order in which `window_load` acquired them (bitmap layer, time text layer,
date text layer, time font, date font), and the four bitmaps after them,
also in their order of acquisition. -/
theorem window_unload_same_order (host : Host) (s : State) :
    (released_between (window_load host s) (window_unload (window_load host s))).filter
        is_layer_or_font
      = (acquired_between s (window_load host s)).filter is_layer_or_font ∧
    (released_between (window_load host s) (window_unload (window_load host s))).filter
        is_layer_or_font
      = [(Kind.bitmap_layer, (window_load host s).bitmap_layer),
          (Kind.text_layer, (window_load host s).s_time_layer),
          (Kind.text_layer, (window_load host s).s_date_layer),
          (Kind.font, (window_load host s).s_time_font),
          (Kind.font, (window_load host s).s_date_font)] ∧
    released_between (window_load host s) (window_unload (window_load host s))
      = acquired_between s (window_load host s) := by
  obtain ⟨h1, h2, h3, h4, h5⟩ := window_load_handles host s
  rw [window_unload_released, window_load_acquired, h1, h2, h3, h4, h5]
  refine ⟨rfl, ?_, rfl⟩
  simp [List.filter, is_layer_or_font]

/-! ## Background selection -/

theorem load_background_bound (r : Nat) (s : State) :
    bound_bitmap (load_background r s) = (load_background r s).maz.get? (r % 4) := by
  simp [bound_bitmap, load_background, State.create, State.call]

theorem load_background_get (r : Nat) (s : State) (i : Nat) (hi : i < 4) :
    (load_background r s).maz.get? i = some (s.next + i) := by
  simp only [Maz.get?, load_background_maz]
  interval_cases i <;> simp

theorem load_background_selects (r : Nat) (s : State) (k : Nat) (hk : k < 4) :
    bound_bitmap (load_background r s) = (load_background r s).maz.get? k ↔ r % 4 = k := by
  rw [load_background_bound, load_background_get r s (r % 4) (Nat.mod_lt _ (by decide)),
    load_background_get r s k hk]
  simp

theorem count_mod_four (q k : Nat) (hk : k < 4) :
    Nat.count (fun r => r % 4 = k) (4 * q) = q := by
  induction q with
  | zero => simp
  | succ n ih =>
    have e : 4 * (n + 1) = 4 * n + 1 + 1 + 1 + 1 := by ring
    rw [e, Nat.count_succ, Nat.count_succ, Nat.count_succ, Nat.count_succ, ih]
    have m0 : (4 * n) % 4 = 0 := by omega
    have m1 : (4 * n + 1) % 4 = 1 := by omega
    have m2 : (4 * n + 1 + 1) % 4 = 2 := by omega
    have m3 : (4 * n + 1 + 1 + 1) % 4 = 3 := by omega
    rw [m0, m1, m2, m3]
    interval_cases k <;> simp

/-- C9: for every value `r` of `rand()`, the index `r % 4` used by
`load_background` is below 4, and the bitmap bound to the layer is
`maz[r % 4]`, one of the four bitmaps the same call has just created; and
whenever `RAND_MAX + 1` is a multiple of 4, each index `k` in 0..3 is the
one selected for exactly `(RAND_MAX + 1) / 4` of the values `r` in
`0..RAND_MAX`. -/
theorem load_background_index (RAND_MAX k : Nat) (s : State)
    (h4 : 4 ∣ RAND_MAX + 1) (hk : k < 4) :
    (∀ r : Nat, r % 4 < 4 ∧
      bound_bitmap (load_background r s) = (load_background r s).maz.get? (r % 4) ∧
      (∃ h, bound_bitmap (load_background r s) = some h ∧
        (Kind.bitmap, h) ∈ acquired_between s (load_background r s))) ∧
    ((Finset.range (RAND_MAX + 1)).filter
      (fun r => bound_bitmap (load_background r s) = (load_background r s).maz.get? k)).card
      = (RAND_MAX + 1) / 4 := by
  constructor
  · intro r
    have hlt : r % 4 < 4 := Nat.mod_lt _ (by decide)
    refine ⟨hlt, load_background_bound r s, s.next + r % 4, ?_, ?_⟩
    · rw [load_background_bound, load_background_get r s _ hlt]
    · unfold acquired_between
      rw [emitted_append s (load_background r s) _ (by
        simp only [load_background, State.create, State.call, List.append_assoc]
        rfl)]
      have : r % 4 = 0 ∨ r % 4 = 1 ∨ r % 4 = 2 ∨ r % 4 = 3 := by omega
      rcases this with h | h | h | h <;> rw [h] <;> simp [acquired_by]
  · obtain ⟨q, hq⟩ := h4
    have hcount := count_mod_four q k hk
    rw [Nat.count_eq_card_filter_range] at hcount
    rw [hq, Nat.mul_div_cancel_left q (by decide : 0 < 4)]
    rw [Finset.filter_congr (fun r _ => load_background_selects r s k hk)]
    exact hcount

/-- Witness for C9: with `RAND_MAX = 32767`, index 2 is selected by 8192 of
the 32768 values of `rand()`. -/
theorem load_background_index_witness :
    4 ∣ 32767 + 1 ∧ 2 < 4 ∧
    ((Finset.range (32767 + 1)).filter
      (fun r => bound_bitmap (load_background r program_start)
        = (load_background r program_start).maz.get? 2)).card = (32767 + 1) / 4 :=
  ⟨by decide, by decide, (load_background_index 32767 2 program_start (by decide) (by decide)).2⟩

end Mazda
